import Mathlib

/-!
Shallow embedding of the Vibly capture/upload pipeline.

Backend (vibly-backend/src/recordings/recordings.service.ts, r2.service,
the Prisma schema): `initRecording` and `completeRecording` are modelled as
pure state-transition functions over an explicit database value.  Database
ids (uuid values), timestamps (millisecond clocks) and the storage layer's
responses are passed in as explicit parameters; the list of storage-side
operations a call performs is returned alongside the result so that
"no storage mutation happened" is a statement about the returned trace.

Extension (vibly-extension/lib/uploader.js, background/service-worker.js,
the popup timers and the offscreen recorder): the part splitter, the
per-part retry loop, the popup timer arithmetic and the offscreen
pause/resume transitions are modelled as pure functions.
-/

namespace Vibly

/-- Error outcomes of the recordings service.  Each constructor corresponds
to one `throw` site in recordings.service.ts (exception class + message):
`notFound` = NotFoundException "Upload session not found";
`forbiddenOwner` = ForbiddenException "Not authorized";
`sessionInactive` = BadRequestException "Upload session is not active";
`sessionExpired` = BadRequestException "Upload session expired";
`quotaExceeded` = ForbiddenException "Free tier limited to 5 recordings";
`nullUser` models the TypeError the JS code would raise reading
`user.subscriptionTier` when the user lookup returns null. -/
inductive SvcError where
  | notFound
  | forbiddenOwner
  | sessionInactive
  | sessionExpired
  | quotaExceeded
  | nullUser
  deriving DecidableEq, Repr

/-- Row of the `User` table (fields the service reads). -/
structure User where
  id : Nat
  subscriptionTier : String
  deriving DecidableEq, Repr

/-- Row of the `Recording` table (Prisma schema). -/
structure Recording where
  id : Nat
  userId : Nat
  title : String
  duration : Nat
  filePath : String
  fileSize : Nat
  shareToken : String
  isPublic : Bool
  viewCount : Nat
  createdAt : Int
  expiresAt : Option Int
  deriving DecidableEq, Repr

/-- Row of the `UploadSession` table (Prisma schema; `recordingId` carries a
unique index, `partsUploaded` defaults to 0 and is never written by the
service). -/
structure UploadSession where
  id : Nat
  recordingId : Nat
  userId : Nat
  uploadId : Nat
  status : String
  partsUploaded : Nat
  createdAt : Int
  expiresAt : Int
  deriving DecidableEq, Repr

/-- The persistent database state the recordings service reads and writes. -/
structure Db where
  users : List User
  recordings : List Recording
  uploadSessions : List UploadSession
  deriving DecidableEq, Repr

/-- Presigned upload URL for one part, identified by the object key, the
provider upload id and the 1-based part number (r2.service.ts
`getPresignedUploadUrl`). -/
structure PresignedUrl where
  key : String
  uploadId : Nat
  partNumber : Nat
  deriving DecidableEq, Repr

/-- Storage-side (R2) operations a service call performs, in order. -/
inductive R2Op where
  | createMultipart (key : String)
  | presignUploadUrl (key : String) (uploadId : Nat) (partNumber : Nat)
  | completeMultipart (key : String) (uploadId : Nat) (parts : List (Nat × String))
  | headObject (key : String)
  deriving DecidableEq, Repr

/-- FREE_TIER_MAX_RECORDINGS in recordings.service.ts. -/
def FREE_TIER_MAX_RECORDINGS : Nat := 5

/-- FREE_TIER_RETENTION_DAYS in recordings.service.ts. -/
def FREE_TIER_RETENTION_DAYS : Nat := 30

/-- Stand-in for process.env.FRONTEND_URL. -/
def frontendUrl : String := "https://vibly.example"

/-- prisma.user.findUnique where id = userId. -/
def findUser (db : Db) (userId : Nat) : Option User :=
  db.users.find? (fun u => u.id == userId)

/-- prisma.uploadSession.findUnique where recordingId (unique index). -/
def findSessionByRecordingId (db : Db) (recordingId : Nat) : Option UploadSession :=
  db.uploadSessions.find? (fun s => s.recordingId == recordingId)

/-- prisma.recording.count where userId. -/
def recordingCountFor (db : Db) (userId : Nat) : Nat :=
  (db.recordings.filter (fun r => r.userId == userId)).length

/-- prisma.uploadSession.update where id, data status. -/
def updateSessionStatus (sessions : List UploadSession) (id : Nat) (st : String) :
    List UploadSession :=
  sessions.map (fun s => if s.id == id then { s with status := st } else s)

/-- Object key "recordings/{recordingId}.webm". -/
def objectKey (recordingId : Nat) : String :=
  "recordings/" ++ toString recordingId ++ ".webm"

/-- r2.service.ts getPresignedUploadUrls: one presigned PUT per part number
1..partCount. -/
def getPresignedUploadUrls (key : String) (uploadId : Nat) (partCount : Nat) :
    List PresignedUrl :=
  (List.range partCount).map (fun i => ⟨key, uploadId, i + 1⟩)

deriving instance DecidableEq for Except

/-- Result object of a successful initRecording call. -/
structure InitResult where
  recordingId : Nat
  uploadId : Nat
  uploadUrls : List PresignedUrl
  deriving DecidableEq, Repr

/-- Outcome of an initRecording call: the returned value or raised error, the
database state after the call, and the storage operations performed. -/
structure InitOutcome where
  result : Except SvcError InitResult
  db : Db
  r2ops : List R2Op
  deriving DecidableEq, Repr

/-- Body of InitRecordingDto (class-validator enforces Min(1) on both). -/
structure InitDto where
  estimatedSize : Nat
  partCount : Nat
  deriving DecidableEq, Repr

/-- The non-quota tail of initRecording: create the multipart upload, presign
one URL per requested part, insert the UploadSession row with
expiresAt = now + 15 minutes and status "uploading", and return
{recordingId, uploadId, uploadUrls}.  `now` is Date.now() in ms;
`recordingId`, `sessionId` are the uuid() draws and `uploadId` the provider
handle returned by createMultipartUpload. -/
def initRecordingCreate (userId : Nat) (dto : InitDto) (now : Int)
    (recordingId uploadId sessionId : Nat) (db : Db) : InitOutcome :=
  let key := objectKey recordingId
  let uploadUrls := getPresignedUploadUrls key uploadId dto.partCount
  let expiresAt := now + 15 * 60 * 1000
  let session : UploadSession :=
    { id := sessionId, recordingId := recordingId, userId := userId,
      uploadId := uploadId, status := "uploading", partsUploaded := 0,
      createdAt := now, expiresAt := expiresAt }
  { result := .ok { recordingId := recordingId, uploadId := uploadId,
                    uploadUrls := uploadUrls },
    db := { db with uploadSessions := db.uploadSessions ++ [session] },
    r2ops := R2Op.createMultipart key ::
      uploadUrls.map (fun u => R2Op.presignUploadUrl u.key u.uploadId u.partNumber) }

/-- recordings.service.ts initRecording: look up the user; for the free tier
count the user's recordings and throw ForbiddenException when the count has
reached FREE_TIER_MAX_RECORDINGS, before any storage call or row insert;
otherwise proceed to create the session. -/
def initRecording (userId : Nat) (dto : InitDto) (now : Int)
    (recordingId uploadId sessionId : Nat) (db : Db) : InitOutcome :=
  match findUser db userId with
  | none => { result := .error .nullUser, db := db, r2ops := [] }
  | some user =>
    if user.subscriptionTier = "free" then
      if recordingCountFor db userId ≥ FREE_TIER_MAX_RECORDINGS then
        { result := .error .quotaExceeded, db := db, r2ops := [] }
      else initRecordingCreate userId dto now recordingId uploadId sessionId db
    else initRecordingCreate userId dto now recordingId uploadId sessionId db

/-- One entry of CompleteRecordingDto.parts. -/
structure PartDto where
  partNumber : Nat
  etag : String
  deriving DecidableEq, Repr

/-- Body of CompleteRecordingDto. -/
structure CompleteDto where
  parts : List PartDto
  duration : Nat
  title : Option String
  deriving DecidableEq, Repr

/-- Result object of a successful completeRecording call. -/
structure CompleteResult where
  shareUrl : String
  shareToken : String
  recordingId : Nat
  deriving DecidableEq, Repr

/-- Outcome of a completeRecording call: result or error, database after the
call, and the storage operations performed. -/
structure CompleteOutcome where
  result : Except SvcError CompleteResult
  db : Db
  r2ops : List R2Op
  deriving DecidableEq, Repr

/-- r2.service.ts getObjectMetadata: a HeadObject that throws is caught and
returned as null (outer `none`); a response with a missing ContentLength is
coerced to `{contentLength: 0}`.  `headResponse` is the provider's answer:
`none` when HeadObject throws, `some cl` for a response whose optional
ContentLength is `cl`. -/
def getObjectMetadata (headResponse : Option (Option Nat)) : Option Nat :=
  match headResponse with
  | none => none
  | some cl =>
    some (match cl with
          | some n => n
          | none => 0)

/-- recordings.service.ts completeRecording.  Validation order follows the
source: session exists (else NotFound), owner matches (else Forbidden),
status is "uploading" (else BadRequest), not expired (else BadRequest);
only then the storage-side completeMultipartUpload and HeadObject run, the
Recording row is inserted and the session is marked "completed".
`now` is Date.now() in ms, `headResponse` is the storage layer's HeadObject
answer and `shareToken` the random token drawn by generateShareToken. -/
def completeRecording (userId recordingId : Nat) (dto : CompleteDto)
    (now : Int) (headResponse : Option (Option Nat)) (shareToken : String)
    (db : Db) : CompleteOutcome :=
  match findSessionByRecordingId db recordingId with
  | none => { result := .error .notFound, db := db, r2ops := [] }
  | some session =>
    if session.userId ≠ userId then
      { result := .error .forbiddenOwner, db := db, r2ops := [] }
    else if session.status ≠ "uploading" then
      { result := .error .sessionInactive, db := db, r2ops := [] }
    else if session.expiresAt < now then
      { result := .error .sessionExpired, db := db, r2ops := [] }
    else
      let key := objectKey recordingId
      let parts := dto.parts.map (fun p => (p.partNumber, p.etag))
      let ops := [R2Op.completeMultipart key session.uploadId parts,
                  R2Op.headObject key]
      let fileSize := (getObjectMetadata headResponse).getD 0
      match findUser db userId with
      | none => { result := .error .nullUser, db := db, r2ops := ops }
      | some user =>
        let expiresAt : Option Int :=
          if user.subscriptionTier = "free" then
            some (now + (FREE_TIER_RETENTION_DAYS : Int) * 24 * 60 * 60 * 1000)
          else none
        let title :=
          match dto.title with
          | some t => if t = "" then "Untitled Recording" else t
          | none => "Untitled Recording"
        let row : Recording :=
          { id := recordingId, userId := userId, title := title,
            duration := dto.duration, filePath := key, fileSize := fileSize,
            shareToken := shareToken, isPublic := true, viewCount := 0,
            createdAt := now, expiresAt := expiresAt }
        let db' : Db :=
          { db with
            recordings := db.recordings ++ [row],
            uploadSessions :=
              updateSessionStatus db.uploadSessions session.id "completed" }
        { result := .ok { shareUrl := frontendUrl ++ "/v/" ++ shareToken,
                          shareToken := shareToken, recordingId := recordingId },
          db := db',
          r2ops := ops }

/-- PART_SIZE in vibly-extension config/constants: 5 MiB. -/
def PART_SIZE : Nat := 5 * 1024 * 1024

/-- MAX_RECORDING_DURATION in vibly-extension config/constants: 420 s. -/
def MAX_RECORDING_DURATION : Nat := 420

/-- uploader.js Uploader.upload: totalParts = Math.ceil(blob.size / PART_SIZE)
(exact ceiling division on byte counts). -/
def clientTotalParts (size : Nat) : Nat :=
  (size + PART_SIZE - 1) / PART_SIZE

/-- Record of one iteration of the uploader's sequential part loop: the
1-based part number, the sliced byte range [rangeStart, rangeEnd) and the
progress value handed to onProgress after the part finished. -/
structure UploadEvent where
  partNumber : Nat
  rangeStart : Nat
  rangeEnd : Nat
  progress : ℚ
  deriving DecidableEq, Repr

/-- uploader.js Uploader.upload part loop: for i = 0..totalParts-1, slice
[i*PART_SIZE, min(i*PART_SIZE + PART_SIZE, size)), upload it as part i+1,
then report progress ((i+1)/totalParts)*100.  The list order is the
execution order: each part completes before the next starts. -/
def uploadParts (size : Nat) : List UploadEvent :=
  (List.range (clientTotalParts size)).map (fun i =>
    { partNumber := i + 1
      rangeStart := i * PART_SIZE
      rangeEnd := min (i * PART_SIZE + PART_SIZE) size
      progress := (((i : ℚ) + 1) / (clientTotalParts size : ℚ)) * 100 })

/-- Environment answer to one PUT attempt of a part: `network` when fetch
itself rejects; otherwise the response's ok flag, status code and the
optional ETag header. -/
inductive PutResponse where
  | network
  | resp (ok : Bool) (status : Nat) (etag : Option String)
  deriving DecidableEq, Repr

/-- Failure reason of one PUT attempt, matching the three throw paths of
uploadPartWithRetry: fetch rejection, a non-ok status, or a missing ETag. -/
inductive PartUploadError where
  | network
  | badStatus (status : Nat)
  | noEtag
  deriving DecidableEq, Repr

/-- ETag post-processing: the global regex replace that deletes every
double-quote character from the header value. -/
def stripQuotes (s : String) : String :=
  ⟨s.data.filter (fun c => c ≠ '\"')⟩

/-- Body of one attempt in uploadPartWithRetry: throw on a non-ok response or
a missing ETag, otherwise return the quote-stripped ETag. -/
def attemptOutcome : PutResponse → Except PartUploadError String
  | .network => .error .network
  | .resp ok status etag =>
    if ok then
      match etag with
      | none => .error .noEtag
      | some e => .ok (stripQuotes e)
    else .error (.badStatus status)

/-- The retry loop of uploadPartWithRetry, fuelled by the number of loop
iterations left (`fuel` = maxRetries - attempt at entry).  Returns the final
result (the successful ETag, or the last attempt's error), the list of
backoff delays performed in milliseconds (Math.pow(2, attempt) * 1000 after
each failed non-final attempt), and the number of attempts made.  The
`fuel = 0` base case is unreachable from `uploadPartWithRetry` with
maxRetries ≥ 1. -/
def retryLoop (env : Nat → PutResponse) (maxRetries : Nat) :
    Nat → Nat → Except PartUploadError String × List Nat × Nat
  | _, 0 => (.error .network, [], 0)
  | attempt, fuel + 1 =>
    match attemptOutcome (env attempt) with
    | .ok e => (.ok e, [], attempt + 1)
    | .error err =>
      if attempt < maxRetries - 1 then
        let r := retryLoop env maxRetries (attempt + 1) fuel
        (r.1, 2 ^ attempt * 1000 :: r.2.1, r.2.2)
      else (.error err, [], attempt + 1)

/-- uploader.js uploadPartWithRetry: run the attempt loop from attempt 0 with
maxRetries iterations available; `env n` is what the network returns for the
n-th attempt. -/
def uploadPartWithRetry (env : Nat → PutResponse) (maxRetries : Nat) :
    Except PartUploadError String × List Nat × Nat :=
  retryLoop env maxRetries 0 maxRetries

/-- Popup timer tick (part_003 ViblyPopup.startTimer / resumeTimer):
elapsed = Math.floor((now - startTime) / 1000) + pausedTime, all
times in milliseconds, pausedTime in seconds. -/
def popupElapsed (startTime pausedTime now : Nat) : Nat :=
  (now - startTime) / 1000 + pausedTime

/-- Popup auto-stop condition inside each tick: elapsed ≥
MAX_RECORDING_DURATION triggers stopRecording. -/
def tickAutoStops (startTime pausedTime now : Nat) : Prop :=
  MAX_RECORDING_DURATION ≤ popupElapsed startTime pausedTime now

/-- Service worker handleStopRecording: duration =
Math.floor((Date.now() - recordingState.startTime) / 1000); the service
worker's startTime is set once at start and never adjusted for pauses. -/
def swStopDuration (startTime now : Nat) : Nat :=
  (now - startTime) / 1000

/-- MediaRecorder-level state of the offscreen recorder (part_004):
`inactive` also covers mediaRecorder being null. -/
inductive RecorderState where
  | inactive
  | recording
  | paused
  deriving DecidableEq, Repr

/-- Offscreen recorder state: the MediaRecorder sub-state and the
accumulated recordedChunks (opaque chunk payloads, in arrival order). -/
structure OffscreenRecorder where
  state : RecorderState
  recordedChunks : List Nat
  deriving DecidableEq, Repr

/-- part_004 pauseRecording: mediaRecorder.pause() only when the state is
'recording'; otherwise nothing happens. -/
def pauseRecording (r : OffscreenRecorder) : OffscreenRecorder :=
  if r.state = .recording then { r with state := .paused } else r

/-- part_004 resumeRecording: mediaRecorder.resume() only when the state is
'paused'; otherwise nothing happens. -/
def resumeRecording (r : OffscreenRecorder) : OffscreenRecorder :=
  if r.state = .paused then { r with state := .recording } else r

/-! Helper lemmas and shared concrete fixtures. -/

/-- Marking one session's status leaves every recordingId unchanged, so the
unique-index lookup still finds the same (now updated) session. -/
theorem find?_updateSessionStatus (l : List UploadSession) (rid : Nat)
    (s : UploadSession) (st : String)
    (hs : l.find? (fun x => x.recordingId == rid) = some s) :
    (updateSessionStatus l s.id st).find? (fun x => x.recordingId == rid)
      = some { s with status := st } := by
  unfold updateSessionStatus
  rw [List.find?_map]
  have hp : ((fun x => x.recordingId == rid) ∘
      (fun x => if x.id == s.id then { x with status := st } else x))
      = (fun x : UploadSession => x.recordingId == rid) := by
    funext x
    by_cases h : x.id = s.id <;> simp [h]
  rw [hp, hs]
  simp

/-- The Recording row completeRecording inserts on success. -/
def completedRow (uid rid : Nat) (dto : CompleteDto) (now : Int)
    (headResponse : Option (Option Nat)) (tok : String) (u : User) : Recording :=
  { id := rid, userId := uid,
    title := match dto.title with
             | some t => if t = "" then "Untitled Recording" else t
             | none => "Untitled Recording",
    duration := dto.duration, filePath := objectKey rid,
    fileSize := (getObjectMetadata headResponse).getD 0,
    shareToken := tok, isPublic := true, viewCount := 0, createdAt := now,
    expiresAt :=
      if u.subscriptionTier = "free" then
        some (now + (FREE_TIER_RETENTION_DAYS : Int) * 24 * 60 * 60 * 1000)
      else none }

/-- Full normal-form of a successful completeRecording call. -/
theorem completeRecording_success (db : Db) (uid rid : Nat) (dto : CompleteDto)
    (now : Int) (head : Option (Option Nat)) (tok : String)
    (s : UploadSession) (u : User)
    (hs : findSessionByRecordingId db rid = some s)
    (howner : s.userId = uid) (hstat : s.status = "uploading")
    (hexp : ¬ s.expiresAt < now) (hu : findUser db uid = some u) :
    completeRecording uid rid dto now head tok db =
      { result := .ok { shareUrl := frontendUrl ++ "/v/" ++ tok,
                        shareToken := tok, recordingId := rid },
        db := { db with
                recordings := db.recordings ++ [completedRow uid rid dto now head tok u],
                uploadSessions :=
                  updateSessionStatus db.uploadSessions s.id "completed" },
        r2ops := [R2Op.completeMultipart (objectKey rid) s.uploadId
                    (dto.parts.map (fun p => (p.partNumber, p.etag))),
                  R2Op.headObject (objectKey rid)] } := by
  unfold completeRecording
  rw [hs]
  simp only [howner, hstat, hexp, if_false, ne_eq, not_true_eq_false, if_neg,
    not_false_eq_true]
  rw [hu]
  simp [completedRow]

/-- Concrete fixtures used by the witness theorems. -/
def userFree : User := { id := 1, subscriptionTier := "free" }

def userPaid : User := { id := 2, subscriptionTier := "paid" }

def sessionA : UploadSession :=
  { id := 10, recordingId := 42, userId := 1, uploadId := 77,
    status := "uploading", partsUploaded := 0, createdAt := 0,
    expiresAt := 900000 }

def dbA : Db :=
  { users := [userFree, userPaid], recordings := [], uploadSessions := [sessionA] }

def dtoA : CompleteDto :=
  { parts := [⟨1, "etagone"⟩], duration := 30, title := some "Demo" }

/-! Claim theorems. -/

/-- C2: completeRecording validates in exactly this order — missing session
(NotFound), then owner mismatch (Forbidden), then non-"uploading" status
(BadRequest / SessionInactive), then expiry (BadRequest / SessionExpired) —
and every failing check returns with the database unchanged and no storage
operation performed.  Order is captured by each earlier error firing with no
assumption about the later checks. -/
theorem complete_validation_order (db : Db) (uid rid : Nat) (dto : CompleteDto)
    (now : Int) (head : Option (Option Nat)) (tok : String) :
    (findSessionByRecordingId db rid = none →
      completeRecording uid rid dto now head tok db =
        { result := .error .notFound, db := db, r2ops := [] })
    ∧ (∀ s, findSessionByRecordingId db rid = some s →
        (s.userId ≠ uid →
          completeRecording uid rid dto now head tok db =
            { result := .error .forbiddenOwner, db := db, r2ops := [] })
        ∧ (s.userId = uid → s.status ≠ "uploading" →
          completeRecording uid rid dto now head tok db =
            { result := .error .sessionInactive, db := db, r2ops := [] })
        ∧ (s.userId = uid → s.status = "uploading" → s.expiresAt < now →
          completeRecording uid rid dto now head tok db =
            { result := .error .sessionExpired, db := db, r2ops := [] })) := by
  constructor
  · intro h
    unfold completeRecording
    rw [h]
  · intro s hs
    refine ⟨?_, ?_, ?_⟩
    · intro howner
      unfold completeRecording
      rw [hs]
      simp [howner]
    · intro howner hstat
      unfold completeRecording
      rw [hs]
      simp [howner, hstat]
    · intro howner hstat hexp
      unfold completeRecording
      rw [hs]
      simp [howner, hstat, hexp]

/-- C2 witness: on the concrete database the ownership check fires for a
caller who is not the session owner. -/
theorem complete_validation_order_witness :
    completeRecording 2 42 dtoA 0 none "tok" dbA =
      { result := .error .forbiddenOwner, db := dbA, r2ops := [] } :=
  ((complete_validation_order dbA 2 42 dtoA 0 none "tok").2 sessionA
    (by decide)).1 (by decide)

/-- C3: a complete call whose evaluation time is past the session's
expiresAt fails with SessionExpired and performs no database or storage
mutation, whatever part list the caller supplies. -/
theorem complete_after_expiry_fails (db : Db) (uid rid : Nat) (dto : CompleteDto)
    (now : Int) (head : Option (Option Nat)) (tok : String) (s : UploadSession)
    (hs : findSessionByRecordingId db rid = some s)
    (howner : s.userId = uid) (hstat : s.status = "uploading")
    (hexp : s.expiresAt < now) :
    completeRecording uid rid dto now head tok db =
      { result := .error .sessionExpired, db := db, r2ops := [] } := by
  unfold completeRecording
  rw [hs]
  simp [howner, hstat, hexp]

/-- C3 witness: the concrete session expires at 900000 ms; completing at
1000000 ms fails with SessionExpired and leaves the database unchanged. -/
theorem complete_after_expiry_fails_witness :
    completeRecording 1 42 dtoA 1000000 (some (some 5)) "tok" dbA =
      { result := .error .sessionExpired, db := dbA, r2ops := [] } :=
  complete_after_expiry_fails dbA 1 42 dtoA 1000000 (some (some 5)) "tok"
    sessionA (by decide) (by decide) (by decide) (by decide)

/-- C9: pause and resume are idempotent no-ops when the recorder is already
in the target sub-state, and neither touches the collected chunk list (the
chunk sequence afterwards extends the one before). -/
theorem pause_resume_idempotent_noops (r : OffscreenRecorder) :
    (r.state ≠ .recording → pauseRecording r = r)
    ∧ (r.state = .recording → resumeRecording r = r)
    ∧ pauseRecording (pauseRecording r) = pauseRecording r
    ∧ resumeRecording (resumeRecording r) = resumeRecording r
    ∧ (pauseRecording r).recordedChunks = r.recordedChunks
    ∧ (∃ tl, (resumeRecording (pauseRecording r)).recordedChunks
        = r.recordedChunks ++ tl) := by
  rcases r with ⟨st, ch⟩
  cases st <;> simp [pauseRecording, resumeRecording]

/-- C9 witness: a paused recorder with two chunks is untouched by pause, and
resume twice equals resume once. -/
theorem pause_resume_idempotent_noops_witness :
    pauseRecording { state := .paused, recordedChunks := [3, 4] } =
      { state := .paused, recordedChunks := [3, 4] }
    ∧ resumeRecording (resumeRecording { state := .paused, recordedChunks := [3, 4] })
      = resumeRecording { state := .paused, recordedChunks := [3, 4] } :=
  ⟨(pause_resume_idempotent_noops _).1 (by decide),
   (pause_resume_idempotent_noops _).2.2.2.1⟩

/-- C7 counterexample: recording starts at 0 ms, the user pauses at 5000 ms
and resumes at 10000 ms (Δt = 5 s), and stops at 15000 ms.  Wall-clock minus
Δt is 10 s, and the popup's displayed elapsed is indeed 10 s, but the final
duration the service worker computes at stop is 15 s — paused time is NOT
excluded there, beyond any one-tick tolerance. -/
theorem sw_duration_includes_pause_counterexample :
    swStopDuration 0 15000 = 15
    ∧ popupElapsed 10000 (popupElapsed 0 0 5000) 15000 = 10
    ∧ ¬ (swStopDuration 0 15000 ≤ 10 + 1) := by decide

/-- C7 amended: for a pause of duration tr - tp inside a recording running
from t0 to t (popup continuously open), the popup's displayed elapsed value
equals wall-clock minus paused time within one 1-second tick, and the
auto-stop ceiling comparison uses exactly that pause-excluding value; the
final duration the service worker reports at stop, however, is wall-clock
from start to stop, paused time included. -/
theorem popup_timer_excludes_pause (t0 tp tr t : Nat)
    (h1 : t0 ≤ tp) (h2 : tp ≤ tr) (h3 : tr ≤ t) :
    (popupElapsed tr (popupElapsed t0 0 tp) t ≤ ((t - t0) - (tr - tp)) / 1000
      ∧ ((t - t0) - (tr - tp)) / 1000 ≤ popupElapsed tr (popupElapsed t0 0 tp) t + 1)
    ∧ (tickAutoStops tr (popupElapsed t0 0 tp) t ↔
        MAX_RECORDING_DURATION ≤ popupElapsed tr (popupElapsed t0 0 tp) t)
    ∧ swStopDuration t0 t = (t - t0) / 1000 := by
  refine ⟨⟨?_, ?_⟩, Iff.rfl, rfl⟩ <;>
    simp only [popupElapsed] <;> omega

/-- C7 amended, witness: the concrete pause scenario of the counterexample,
where the displayed elapsed value is exactly wall-clock minus paused time. -/
theorem popup_timer_excludes_pause_witness :
    (popupElapsed 10000 (popupElapsed 0 0 5000) 15000
        ≤ ((15000 - 0) - (10000 - 5000)) / 1000
      ∧ ((15000 - 0) - (10000 - 5000)) / 1000
        ≤ popupElapsed 10000 (popupElapsed 0 0 5000) 15000 + 1)
    ∧ (tickAutoStops 10000 (popupElapsed 0 0 5000) 15000 ↔
        MAX_RECORDING_DURATION ≤ popupElapsed 10000 (popupElapsed 0 0 5000) 15000)
    ∧ swStopDuration 0 15000 = (15000 - 0) / 1000 :=
  popup_timer_excludes_pause 0 5000 10000 15000 (by decide) (by decide) (by decide)

/-- C1: completing the same recordingId twice creates at most one Recording
row.  The first call (on an active, owned, unexpired session) succeeds,
appends exactly one Recording and flips the session's status to "completed";
the second call then fails with SessionInactive ("Upload session is not
active") and leaves the database — in particular the recordings table —
untouched, performing no storage operation. -/
theorem complete_twice_single_recording (db : Db) (uid rid : Nat)
    (dto dto2 : CompleteDto) (now now2 : Int)
    (head head2 : Option (Option Nat)) (tok tok2 : String)
    (s : UploadSession) (u : User)
    (hs : findSessionByRecordingId db rid = some s)
    (howner : s.userId = uid) (hstat : s.status = "uploading")
    (hexp : ¬ s.expiresAt < now) (hu : findUser db uid = some u) :
    ∃ row : Recording,
      (completeRecording uid rid dto now head tok db).result =
        .ok { shareUrl := frontendUrl ++ "/v/" ++ tok,
              shareToken := tok, recordingId := rid }
      ∧ (completeRecording uid rid dto now head tok db).db.recordings
          = db.recordings ++ [row]
      ∧ findSessionByRecordingId (completeRecording uid rid dto now head tok db).db rid
          = some { s with status := "completed" }
      ∧ completeRecording uid rid dto2 now2 head2 tok2
            (completeRecording uid rid dto now head tok db).db
          = { result := .error .sessionInactive,
              db := (completeRecording uid rid dto now head tok db).db,
              r2ops := [] } := by
  have h1 := completeRecording_success db uid rid dto now head tok s u hs
    howner hstat hexp hu
  have hs2 : findSessionByRecordingId
      { db with
        recordings := db.recordings ++ [completedRow uid rid dto now head tok u],
        uploadSessions := updateSessionStatus db.uploadSessions s.id "completed" }
      rid = some { s with status := "completed" } :=
    find?_updateSessionStatus db.uploadSessions rid s "completed" hs
  refine ⟨completedRow uid rid dto now head tok u, ?_, ?_, ?_, ?_⟩
  · rw [h1]
  · rw [h1]
  · rw [h1]
    exact hs2
  · rw [h1]
    unfold completeRecording
    rw [hs2]
    simp [howner]

/-- C1 witness: on the concrete database, completing recording 42 twice
creates exactly one Recording row and the second call fails with
SessionInactive. -/
theorem complete_twice_single_recording_witness :
    ∃ row : Recording,
      (completeRecording 1 42 dtoA 100 (some (some 9)) "tokone" dbA).result =
        .ok { shareUrl := frontendUrl ++ "/v/" ++ "tokone",
              shareToken := "tokone", recordingId := 42 }
      ∧ (completeRecording 1 42 dtoA 100 (some (some 9)) "tokone" dbA).db.recordings
          = dbA.recordings ++ [row]
      ∧ findSessionByRecordingId
          (completeRecording 1 42 dtoA 100 (some (some 9)) "tokone" dbA).db 42
          = some { sessionA with status := "completed" }
      ∧ completeRecording 1 42 dtoA 200 (some (some 9)) "toktwo"
            (completeRecording 1 42 dtoA 100 (some (some 9)) "tokone" dbA).db
          = { result := .error .sessionInactive,
              db := (completeRecording 1 42 dtoA 100 (some (some 9)) "tokone" dbA).db,
              r2ops := [] } :=
  complete_twice_single_recording dbA 1 42 dtoA dtoA 100 200 (some (some 9))
    (some (some 9)) "tokone" "toktwo" sessionA userFree (by decide) (by decide)
    (by decide) (by decide) (by decide)

/-- C10: when the HeadObject after assembly fails (the service's
getObjectMetadata returns null) or the response carries no ContentLength,
completeRecording still succeeds and the persisted Recording's fileSize is 0
— the lookup's null result is coerced to 0 rather than failing the call. -/
theorem complete_head_failure_records_zero (db : Db) (uid rid : Nat)
    (dto : CompleteDto) (now : Int) (tok : String) (s : UploadSession) (u : User)
    (hs : findSessionByRecordingId db rid = some s)
    (howner : s.userId = uid) (hstat : s.status = "uploading")
    (hexp : ¬ s.expiresAt < now) (hu : findUser db uid = some u) :
    ((completeRecording uid rid dto now none tok db).result.isOk = true
      ∧ (completeRecording uid rid dto now none tok db).db.recordings
          = db.recordings ++ [completedRow uid rid dto now none tok u]
      ∧ (completedRow uid rid dto now none tok u).fileSize = 0)
    ∧ ((completeRecording uid rid dto now (some none) tok db).result.isOk = true
      ∧ (completeRecording uid rid dto now (some none) tok db).db.recordings
          = db.recordings ++ [completedRow uid rid dto now (some none) tok u]
      ∧ (completedRow uid rid dto now (some none) tok u).fileSize = 0) := by
  have h1 := completeRecording_success db uid rid dto now none tok s u hs
    howner hstat hexp hu
  have h2 := completeRecording_success db uid rid dto now (some none) tok s u hs
    howner hstat hexp hu
  rw [h1, h2]
  exact ⟨⟨rfl, rfl, rfl⟩, ⟨rfl, rfl, rfl⟩⟩

/-- C10 witness: completing with a failed metadata head on the concrete
database records fileSize 0. -/
theorem complete_head_failure_records_zero_witness :
    ((completeRecording 1 42 dtoA 100 none "tok" dbA).result.isOk = true
      ∧ (completeRecording 1 42 dtoA 100 none "tok" dbA).db.recordings
          = dbA.recordings ++ [completedRow 1 42 dtoA 100 none "tok" userFree]
      ∧ (completedRow 1 42 dtoA 100 none "tok" userFree).fileSize = 0)
    ∧ ((completeRecording 1 42 dtoA 100 (some none) "tok" dbA).result.isOk = true
      ∧ (completeRecording 1 42 dtoA 100 (some none) "tok" dbA).db.recordings
          = dbA.recordings ++ [completedRow 1 42 dtoA 100 (some none) "tok" userFree]
      ∧ (completedRow 1 42 dtoA 100 (some none) "tok" userFree).fileSize = 0) :=
  complete_head_failure_records_zero dbA 1 42 dtoA 100 "tok" sessionA userFree
    (by decide) (by decide) (by decide) (by decide) (by decide)

/-- C8: initRecording enforces the free-tier recording-count quota first —
at the limit it fails with the quota error, the database untouched and no
storage operation performed — and on success it appends an UploadSession row
whose status is "uploading" and whose expiresAt is its creation time plus
15 minutes. -/
theorem init_quota_first_and_session_expiry (db : Db) (uid : Nat) (dto : InitDto)
    (now : Int) (rid upid sid : Nat) (u : User) (hu : findUser db uid = some u) :
    (u.subscriptionTier = "free" →
      FREE_TIER_MAX_RECORDINGS ≤ recordingCountFor db uid →
      initRecording uid dto now rid upid sid db =
        { result := .error .quotaExceeded, db := db, r2ops := [] })
    ∧ ((u.subscriptionTier ≠ "free"
        ∨ recordingCountFor db uid < FREE_TIER_MAX_RECORDINGS) →
        (initRecording uid dto now rid upid sid db).result =
          .ok { recordingId := rid, uploadId := upid,
                uploadUrls := getPresignedUploadUrls (objectKey rid) upid dto.partCount }
        ∧ (initRecording uid dto now rid upid sid db).db.uploadSessions =
            db.uploadSessions ++
              [{ id := sid, recordingId := rid, userId := uid, uploadId := upid,
                 status := "uploading", partsUploaded := 0, createdAt := now,
                 expiresAt := now + 15 * 60 * 1000 }]) := by
  constructor
  · intro hfree hcount
    unfold initRecording
    rw [hu]
    simp [hfree, hcount]
  · intro hor
    unfold initRecording
    rw [hu]
    by_cases hf : u.subscriptionTier = "free"
    · have hcount : ¬ FREE_TIER_MAX_RECORDINGS ≤ recordingCountFor db uid := by
        rcases hor with h | h
        · exact absurd hf h
        · omega
      simp [hf, hcount, initRecordingCreate]
    · simp [hf, initRecordingCreate]

/-- Five-recordings library of the free user, to sit exactly at the quota. -/
def recStub : Recording :=
  { id := 90, userId := 1, title := "t", duration := 1, filePath := "p",
    fileSize := 1, shareToken := "s", isPublic := true, viewCount := 0,
    createdAt := 0, expiresAt := none }

def dbQ : Db :=
  { users := [userFree, userPaid], recordings := List.replicate 5 recStub,
    uploadSessions := [] }

/-- C8 witness: the free user with 5 recordings is rejected with the quota
error before anything is created, and the paid user's init persists a
session expiring 15 minutes after creation. -/
theorem init_quota_first_and_session_expiry_witness :
    initRecording 1 { estimatedSize := 1000, partCount := 2 } 0 42 77 10 dbQ =
      { result := .error .quotaExceeded, db := dbQ, r2ops := [] }
    ∧ (initRecording 2 { estimatedSize := 1000, partCount := 2 } 0 42 77 10 dbQ).db.uploadSessions =
        dbQ.uploadSessions ++
          [{ id := 10, recordingId := 42, userId := 2, uploadId := 77,
             status := "uploading", partsUploaded := 0, createdAt := 0,
             expiresAt := 0 + 15 * 60 * 1000 }] :=
  ⟨(init_quota_first_and_session_expiry dbQ 1
      { estimatedSize := 1000, partCount := 2 } 0 42 77 10 userFree (by decide)).1
      (by decide) (by decide),
   ((init_quota_first_and_session_expiry dbQ 2
      { estimatedSize := 1000, partCount := 2 } 0 42 77 10 userPaid (by decide)).2
      (Or.inl (by decide))).2⟩

/-- MAX_FILE_SIZE as declared in vibly-extension config/constants (500 MB);
no code under src reads it. -/
def MAX_FILE_SIZE : Nat := 500 * 1024 * 1024

def dbB : Db := { users := [userPaid], recordings := [], uploadSessions := [] }

/-- Init request the client sends for a 501 MiB blob: partCount is the
uploader's ceiling division, with no cap applied anywhere. -/
def dtoBig : InitDto :=
  { estimatedSize := 501 * 1024 * 1024,
    partCount := clientTotalParts (501 * 1024 * 1024) }

/-- C4 (code follows neither cap nor fail-fast): for a 501 MiB artifact —
larger than the declared MAX_FILE_SIZE — the client computes 101 parts and
initRecording succeeds anyway: it opens the storage multipart session, hands
out 101 presigned part URLs (no 100-part cap) and persists the UploadSession
row. -/
theorem init_no_part_cap_failing_input :
    MAX_FILE_SIZE < 501 * 1024 * 1024
    ∧ clientTotalParts (501 * 1024 * 1024) = 101
    ∧ 100 < clientTotalParts (501 * 1024 * 1024)
    ∧ (initRecording 2 dtoBig 0 42 77 10 dbB).result
        = .ok { recordingId := 42, uploadId := 77,
                uploadUrls := getPresignedUploadUrls (objectKey 42) 77 101 }
    ∧ (getPresignedUploadUrls (objectKey 42) 77 101).length = 101
    ∧ (initRecording 2 dtoBig 0 42 77 10 dbB).db.uploadSessions ≠ []
    ∧ (initRecording 2 dtoBig 0 42 77 10 dbB).r2ops ≠ [] := by decide

/-- C5: every part upload makes at most 3 attempts; after each failed
non-final attempt the loop sleeps 2^attempt seconds (recorded here in
milliseconds, so the delay trace is always 1000·2^0, 1000·2^1, …); the first
successful attempt ends the loop returning that attempt's quote-stripped
ETag; and only when all 3 attempts fail does the call fail, carrying the
last attempt's error. -/
theorem upload_part_retry_spec (env : Nat → PutResponse) :
    (uploadPartWithRetry env 3).2.2 ≤ 3
    ∧ (uploadPartWithRetry env 3).2.1
        = (List.range ((uploadPartWithRetry env 3).2.2 - 1)).map
            (fun i => 2 ^ i * 1000)
    ∧ (∀ e, attemptOutcome (env 0) = .ok e →
        uploadPartWithRetry env 3 = (.ok e, [], 1))
    ∧ (∀ err0 e, attemptOutcome (env 0) = .error err0 →
        attemptOutcome (env 1) = .ok e →
        uploadPartWithRetry env 3 = (.ok e, [1000], 2))
    ∧ (∀ err0 err1 e, attemptOutcome (env 0) = .error err0 →
        attemptOutcome (env 1) = .error err1 →
        attemptOutcome (env 2) = .ok e →
        uploadPartWithRetry env 3 = (.ok e, [1000, 2000], 3))
    ∧ (∀ err0 err1 err2, attemptOutcome (env 0) = .error err0 →
        attemptOutcome (env 1) = .error err1 →
        attemptOutcome (env 2) = .error err2 →
        uploadPartWithRetry env 3 = (.error err2, [1000, 2000], 3)) := by
  cases h0 : attemptOutcome (env 0) with
  | ok e0 =>
    have hr : uploadPartWithRetry env 3 = (.ok e0, [], 1) := by
      simp [uploadPartWithRetry, retryLoop, h0]
    rw [hr]
    refine ⟨by norm_num, by norm_num, ?_, ?_, ?_, ?_⟩ <;> intros <;> simp_all
  | error f0 =>
    cases h1 : attemptOutcome (env 1) with
    | ok e1 =>
      have hr : uploadPartWithRetry env 3 = (.ok e1, [1000], 2) := by
        simp [uploadPartWithRetry, retryLoop, h0, h1]
      rw [hr]
      refine ⟨by norm_num, by norm_num [List.range_succ], ?_, ?_, ?_, ?_⟩ <;>
        intros <;> simp_all
    | error f1 =>
      cases h2 : attemptOutcome (env 2) with
      | ok e2 =>
        have hr : uploadPartWithRetry env 3 = (.ok e2, [1000, 2000], 3) := by
          simp [uploadPartWithRetry, retryLoop, h0, h1, h2]
        rw [hr]
        refine ⟨by norm_num, by norm_num [List.range_succ], ?_, ?_, ?_, ?_⟩ <;>
          intros <;> simp_all
      | error f2 =>
        have hr : uploadPartWithRetry env 3 = (.error f2, [1000, 2000], 3) := by
          simp [uploadPartWithRetry, retryLoop, h0, h1, h2]
        rw [hr]
        refine ⟨by norm_num, by norm_num [List.range_succ], ?_, ?_, ?_, ?_⟩ <;>
          intros <;> simp_all

/-- Network behaviour of the spec's retry scenario: the first two PUT
attempts fail transiently (HTTP 500, then a response with no ETag), the
third succeeds. -/
def envRetry : Nat → PutResponse
  | 0 => .resp false 500 none
  | 1 => .resp true 200 none
  | _ => .resp true 200 (some "\"abc\"")

/-- C5 witness: under envRetry the part upload performs exactly 3 attempts,
sleeps 1 s then 2 s, and still succeeds with the stripped ETag. -/
theorem upload_part_retry_spec_witness :
    uploadPartWithRetry envRetry 3 = (.ok "abc", [1000, 2000], 3) :=
  (upload_part_retry_spec envRetry).2.2.2.2.1 (.badStatus 500) .noEtag "abc"
    (by decide) (by decide) (by decide)

/-- C6: the uploader splits a size-S artifact into ceil(S / 5MiB) parts;
the i-th (0-based) loop iteration uploads exactly the byte range
[i·PART_SIZE, min((i+1)·PART_SIZE, S)) as part number i+1, the iterations
run in list order (one at a time) with strictly ascending part numbers, and
after the i-th part the progress callback receives ((i+1)/partCount)·100. -/
theorem upload_parts_sequential (S : Nat) (hS : 0 < S) :
    (uploadParts S).length = (S + PART_SIZE - 1) / PART_SIZE
    ∧ (∀ i (h : i < (uploadParts S).length),
        ((uploadParts S)[i]).partNumber = i + 1
        ∧ ((uploadParts S)[i]).rangeStart = i * PART_SIZE
        ∧ ((uploadParts S)[i]).rangeEnd = min ((i + 1) * PART_SIZE) S
        ∧ ((uploadParts S)[i]).progress
            = (((i : ℚ) + 1) / ((uploadParts S).length : ℚ)) * 100)
    ∧ ((uploadParts S).map (fun e => e.partNumber)).Pairwise (· < ·) := by
  refine ⟨?_, ?_, ?_⟩
  · simp [uploadParts, clientTotalParts]
  · intro i h
    have hlen : (uploadParts S).length = clientTotalParts S := by simp [uploadParts]
    simp [uploadParts, hlen, Nat.succ_mul]
  · have hmap : (uploadParts S).map (fun e => e.partNumber)
        = (List.range (clientTotalParts S)).map (fun i => i + 1) := by
      simp [uploadParts, List.map_map]
    rw [hmap]
    exact List.Pairwise.map _ (fun a b hab => by omega) (List.pairwise_lt_range _)

/-- C6 witness: a 12 MiB artifact is split into 3 parts; the middle part
covers exactly the second 5 MiB and reports progress (2/3)·100. -/
theorem upload_parts_sequential_witness :
    (uploadParts (12 * 1024 * 1024)).length
      = (12 * 1024 * 1024 + PART_SIZE - 1) / PART_SIZE
    ∧ ((uploadParts (12 * 1024 * 1024)).get ⟨1, by decide⟩).partNumber = 1 + 1
    ∧ ((uploadParts (12 * 1024 * 1024)).get ⟨1, by decide⟩).rangeStart = 1 * PART_SIZE
    ∧ ((uploadParts (12 * 1024 * 1024)).get ⟨1, by decide⟩).rangeEnd
        = min ((1 + 1) * PART_SIZE) (12 * 1024 * 1024)
    ∧ ((uploadParts (12 * 1024 * 1024)).get ⟨1, by decide⟩).progress
        = (((1 : ℚ) + 1) / ((uploadParts (12 * 1024 * 1024)).length : ℚ)) * 100 := by
  have h := upload_parts_sequential (12 * 1024 * 1024) (by norm_num)
  have hi := h.2.1 1 (by decide)
  exact ⟨h.1, hi.1, hi.2.1, hi.2.2.1, hi.2.2.2⟩

end Vibly
